import Mathlib

/-!
Verification of the C64 model table (src/vice/src/c64/c64scmodel.c) and the
GTK3 menu reference / signal-connection logic (src/vice/src/arch/gtk3/uimenu.c)
of the VICE emulator, as a shallow embedding in Lean.

C `int` values are modelled as `Int`; C pointers that may be NULL are
modelled as `Option`; the process-global mutable data (the menu reference
table, the resource store) is modelled as explicit state records.
-/

/-! ## Constants from headers

The headers (c64model.h, vicii.h, cia.h, sid.h, machine.h, c64.h, c64rom.h)
are not part of the excerpt; the enumerator values below follow the VICE
headers.  The proofs only depend on distinctness of the values within each
enumeration, not on the particular numbers.
-/

def VICII_MODEL_6569 : Int := 0
def VICII_MODEL_8565 : Int := 1
def VICII_MODEL_6569R1 : Int := 2
def VICII_MODEL_6567 : Int := 3
def VICII_MODEL_8562 : Int := 4
def VICII_MODEL_6567R56A : Int := 5
def VICII_MODEL_6572 : Int := 6

def MACHINE_SYNC_PAL : Int := -1
def MACHINE_SYNC_NTSC : Int := -2
def MACHINE_SYNC_NTSCOLD : Int := -3
def MACHINE_SYNC_PALN : Int := -4

def CIATICK_NET : Int := 0
def CIATICK_60HZ : Int := 1

def CIA_MODEL_6526 : Int := 0
def CIA_MODEL_6526A : Int := 1

/-- c64scmodel.c: `#define CIA_MODEL_DEFAULT_OLD CIA_MODEL_6526` -/
def CIA_MODEL_DEFAULT_OLD : Int := CIA_MODEL_6526

/-- c64scmodel.c: `#define CIA_MODEL_DEFAULT_NEW CIA_MODEL_6526A` -/
def CIA_MODEL_DEFAULT_NEW : Int := CIA_MODEL_6526A

def SID_MODEL_6581 : Int := 0
def SID_MODEL_8580 : Int := 1
def SID_MODEL_8580D : Int := 2

/-- c64model.h: the `sid` field of a model record is an old/new flag. -/
def OLD_SID : Int := 0

def NEW_SID : Int := 1

def GLUE_DISCRETE : Int := 0
def GLUE_CUSTOM_IC : Int := 1

def BOARD_C64 : Int := 0
def BOARD_SX64 : Int := 1
def BOARD_MAX : Int := 2

def IEC_SOFT_RESET : Int := 0
def IEC_HARD_RESET : Int := 1

def NO_DATASETTE : Int := 0
def HAS_DATASETTE : Int := 1
def NO_IEC : Int := 0
def HAS_IEC : Int := 1
def NO_USERPORT : Int := 0
def HAS_USERPORT : Int := 1
def NO_KEYBOARD : Int := 0
def HAS_KEYBOARD : Int := 1
def NO_CIA2 : Int := 0
def HAS_CIA2 : Int := 1

def C64_CHARGEN_NAME : String := "chargen"
def C64_CHARGEN_JAP_NAME : String := "jpchrgen"

def C64_KERNAL_NONE : Int := 0
def C64_KERNAL_REV1 : Int := 1
def C64_KERNAL_REV2 : Int := 2
def C64_KERNAL_REV3 : Int := 3
def C64_KERNAL_SX64 : Int := 4
def C64_KERNAL_GS64 : Int := 5
def C64_KERNAL_JAP : Int := 6
def C64_KERNAL_4064 : Int := 7

/-- c64model.h: sentinel returned when no table record matches. -/
def C64MODEL_UNKNOWN : Int := 99

/-- c64model.h: number of models; equals the length of the `c64models` table. -/
def C64MODEL_NUM : Nat := 14

/-! ## c64scmodel.c : data model -/

/-- c64scmodel.c `struct model_s`: one record of the hardware model table. -/
structure model_s where
  vicii : Int
  video : Int
  ciatick : Int
  cia : Int
  glue : Int
  sid : Int
  board : Int
  iecreset : Int
  datasette : Int
  iec : Int
  userport : Int
  keyboard : Int
  cia2 : Int
  chargenname : String
  kernalrev : Int
deriving DecidableEq, Repr

/-- Default record used to make C array indexing total (`c64models[i]` is only
evaluated by VICE for `0 <= i < C64MODEL_NUM`). -/
def c64model_default_rec : model_s :=
  { vicii := 0, video := 0, ciatick := 0, cia := 0, glue := 0, sid := 0,
    board := 0, iecreset := 0, datasette := 0, iec := 0, userport := 0,
    keyboard := 0, cia2 := 0, chargenname := "", kernalrev := 0 }

/-- c64scmodel.c `c64models[]`: the compile-time constant model table. -/
def c64models : List model_s := [
  -- C64 PAL
  { vicii := VICII_MODEL_6569, video := MACHINE_SYNC_PAL, ciatick := CIATICK_NET,
    cia := CIA_MODEL_DEFAULT_OLD, glue := GLUE_DISCRETE, sid := OLD_SID, board := BOARD_C64,
    iecreset := IEC_SOFT_RESET, datasette := HAS_DATASETTE, iec := HAS_IEC,
    userport := HAS_USERPORT, keyboard := HAS_KEYBOARD, cia2 := HAS_CIA2,
    chargenname := C64_CHARGEN_NAME, kernalrev := C64_KERNAL_REV3 },
  -- C64C PAL
  { vicii := VICII_MODEL_8565, video := MACHINE_SYNC_PAL, ciatick := CIATICK_NET,
    cia := CIA_MODEL_DEFAULT_NEW, glue := GLUE_CUSTOM_IC, sid := NEW_SID, board := BOARD_C64,
    iecreset := IEC_HARD_RESET, datasette := HAS_DATASETTE, iec := HAS_IEC,
    userport := HAS_USERPORT, keyboard := HAS_KEYBOARD, cia2 := HAS_CIA2,
    chargenname := C64_CHARGEN_NAME, kernalrev := C64_KERNAL_REV3 },
  -- C64 OLD PAL
  { vicii := VICII_MODEL_6569R1, video := MACHINE_SYNC_PAL, ciatick := CIATICK_NET,
    cia := CIA_MODEL_DEFAULT_OLD, glue := GLUE_DISCRETE, sid := OLD_SID, board := BOARD_C64,
    iecreset := IEC_SOFT_RESET, datasette := HAS_DATASETTE, iec := HAS_IEC,
    userport := HAS_USERPORT, keyboard := HAS_KEYBOARD, cia2 := HAS_CIA2,
    chargenname := C64_CHARGEN_NAME, kernalrev := C64_KERNAL_REV2 },
  -- C64 NTSC
  { vicii := VICII_MODEL_6567, video := MACHINE_SYNC_NTSC, ciatick := CIATICK_NET,
    cia := CIA_MODEL_DEFAULT_OLD, glue := GLUE_DISCRETE, sid := OLD_SID, board := BOARD_C64,
    iecreset := IEC_SOFT_RESET, datasette := HAS_DATASETTE, iec := HAS_IEC,
    userport := HAS_USERPORT, keyboard := HAS_KEYBOARD, cia2 := HAS_CIA2,
    chargenname := C64_CHARGEN_NAME, kernalrev := C64_KERNAL_REV3 },
  -- C64C NTSC
  { vicii := VICII_MODEL_8562, video := MACHINE_SYNC_NTSC, ciatick := CIATICK_NET,
    cia := CIA_MODEL_DEFAULT_NEW, glue := GLUE_CUSTOM_IC, sid := NEW_SID, board := BOARD_C64,
    iecreset := IEC_HARD_RESET, datasette := HAS_DATASETTE, iec := HAS_IEC,
    userport := HAS_USERPORT, keyboard := HAS_KEYBOARD, cia2 := HAS_CIA2,
    chargenname := C64_CHARGEN_NAME, kernalrev := C64_KERNAL_REV3 },
  -- C64 OLD NTSC
  { vicii := VICII_MODEL_6567R56A, video := MACHINE_SYNC_NTSCOLD, ciatick := CIATICK_NET,
    cia := CIA_MODEL_DEFAULT_OLD, glue := GLUE_DISCRETE, sid := OLD_SID, board := BOARD_C64,
    iecreset := IEC_SOFT_RESET, datasette := HAS_DATASETTE, iec := HAS_IEC,
    userport := HAS_USERPORT, keyboard := HAS_KEYBOARD, cia2 := HAS_CIA2,
    chargenname := C64_CHARGEN_NAME, kernalrev := C64_KERNAL_REV1 },
  -- C64 PAL-N
  { vicii := VICII_MODEL_6572, video := MACHINE_SYNC_PALN, ciatick := CIATICK_NET,
    cia := CIA_MODEL_DEFAULT_OLD, glue := GLUE_DISCRETE, sid := OLD_SID, board := BOARD_C64,
    iecreset := IEC_SOFT_RESET, datasette := HAS_DATASETTE, iec := HAS_IEC,
    userport := HAS_USERPORT, keyboard := HAS_KEYBOARD, cia2 := HAS_CIA2,
    chargenname := C64_CHARGEN_NAME, kernalrev := C64_KERNAL_REV3 },
  -- SX64 PAL
  { vicii := VICII_MODEL_6569, video := MACHINE_SYNC_PAL, ciatick := CIATICK_60HZ,
    cia := CIA_MODEL_DEFAULT_OLD, glue := GLUE_DISCRETE, sid := OLD_SID, board := BOARD_SX64,
    iecreset := IEC_SOFT_RESET, datasette := NO_DATASETTE, iec := HAS_IEC,
    userport := HAS_USERPORT, keyboard := HAS_KEYBOARD, cia2 := HAS_CIA2,
    chargenname := C64_CHARGEN_NAME, kernalrev := C64_KERNAL_SX64 },
  -- SX64 NTSC
  { vicii := VICII_MODEL_6567, video := MACHINE_SYNC_NTSC, ciatick := CIATICK_60HZ,
    cia := CIA_MODEL_DEFAULT_OLD, glue := GLUE_DISCRETE, sid := OLD_SID, board := BOARD_SX64,
    iecreset := IEC_SOFT_RESET, datasette := NO_DATASETTE, iec := HAS_IEC,
    userport := HAS_USERPORT, keyboard := HAS_KEYBOARD, cia2 := HAS_CIA2,
    chargenname := C64_CHARGEN_NAME, kernalrev := C64_KERNAL_SX64 },
  -- C64 Japanese
  { vicii := VICII_MODEL_6567, video := MACHINE_SYNC_NTSC, ciatick := CIATICK_NET,
    cia := CIA_MODEL_DEFAULT_OLD, glue := GLUE_DISCRETE, sid := OLD_SID, board := BOARD_C64,
    iecreset := IEC_SOFT_RESET, datasette := HAS_DATASETTE, iec := HAS_IEC,
    userport := HAS_USERPORT, keyboard := HAS_KEYBOARD, cia2 := HAS_CIA2,
    chargenname := C64_CHARGEN_JAP_NAME, kernalrev := C64_KERNAL_JAP },
  -- C64 GS
  { vicii := VICII_MODEL_8565, video := MACHINE_SYNC_PAL, ciatick := CIATICK_NET,
    cia := CIA_MODEL_DEFAULT_NEW, glue := GLUE_CUSTOM_IC, sid := NEW_SID, board := BOARD_C64,
    iecreset := IEC_HARD_RESET, datasette := NO_DATASETTE, iec := NO_IEC,
    userport := NO_USERPORT, keyboard := NO_KEYBOARD, cia2 := HAS_CIA2,
    chargenname := C64_CHARGEN_NAME, kernalrev := C64_KERNAL_GS64 },
  -- PET64 PAL
  { vicii := VICII_MODEL_6569, video := MACHINE_SYNC_PAL, ciatick := CIATICK_NET,
    cia := CIA_MODEL_DEFAULT_OLD, glue := GLUE_DISCRETE, sid := OLD_SID, board := BOARD_C64,
    iecreset := IEC_SOFT_RESET, datasette := HAS_DATASETTE, iec := HAS_IEC,
    userport := HAS_USERPORT, keyboard := HAS_KEYBOARD, cia2 := HAS_CIA2,
    chargenname := C64_CHARGEN_NAME, kernalrev := C64_KERNAL_4064 },
  -- PET64 NTSC
  { vicii := VICII_MODEL_6567, video := MACHINE_SYNC_NTSC, ciatick := CIATICK_NET,
    cia := CIA_MODEL_DEFAULT_OLD, glue := GLUE_DISCRETE, sid := OLD_SID, board := BOARD_C64,
    iecreset := IEC_SOFT_RESET, datasette := HAS_DATASETTE, iec := HAS_IEC,
    userport := HAS_USERPORT, keyboard := HAS_KEYBOARD, cia2 := HAS_CIA2,
    chargenname := C64_CHARGEN_NAME, kernalrev := C64_KERNAL_4064 },
  -- ultimax
  { vicii := VICII_MODEL_6567, video := MACHINE_SYNC_NTSC, ciatick := CIATICK_NET,
    cia := CIA_MODEL_DEFAULT_OLD, glue := GLUE_DISCRETE, sid := OLD_SID, board := BOARD_MAX,
    iecreset := IEC_SOFT_RESET, datasette := HAS_DATASETTE, iec := NO_IEC,
    userport := NO_USERPORT, keyboard := HAS_KEYBOARD, cia2 := NO_CIA2,
    chargenname := C64_CHARGEN_NAME, kernalrev := C64_KERNAL_NONE }
]

/-! ## c64scmodel.c : model detection -/

/-- c64scmodel.c `is_new_sid`: old(6581)/new(8580) classification of a SID
model value; any other value falls to the `default` label and is old. -/
def is_new_sid (model : Int) : Int :=
  if model = SID_MODEL_8580 ∨ model = SID_MODEL_8580D then 1 else 0

/-- c64scmodel.c `is_new_cia`: old(6526)/new(6526A) classification of a CIA
model value; any other value falls to the `default` label and is old. -/
def is_new_cia (model : Int) : Int :=
  if model = CIA_MODEL_6526A then 1 else 0

/-- The per-record condition of the loop in `c64model_get_temp`
(c64scmodel.c lines 211-218), with `new_sid` and `new_cia` already computed.
A NULL `chargen` (modelled as `none`) fails the final conjunct for every
record, exactly like the C `chargen && (strcmp(...) == 0)`. -/
def c64model_match_rec (m : model_s) (vicii_model new_sid glue_logic new_cia
    board iecreset : Int) (chargen : Option String) (kernalrev : Int) : Bool :=
  (m.vicii == vicii_model)
    && (is_new_cia m.cia == new_cia)
    && (m.glue == glue_logic)
    && (m.sid == new_sid)
    && (m.board == board)
    && (m.iecreset == iecreset)
    && (m.kernalrev == kernalrev)
    && (match chargen with
        | none => false
        | some s => m.chargenname == s)

/-- The `for (i = 0; i < C64MODEL_NUM; ++i)` scan of `c64model_get_temp`:
return the index of the first record satisfying `p`, and `C64MODEL_UNKNOWN`
when the table is exhausted.  `i` is the index of the head of `l` within the
full table. -/
def c64model_scan (p : model_s → Bool) : List model_s → Nat → Int
  | [], _ => C64MODEL_UNKNOWN
  | m :: rest, i => if p m then Int.ofNat i else c64model_scan p rest (i + 1)

/-- c64scmodel.c `c64model_get_temp`, parameterized by the table as found in
memory (the C global `c64models`). -/
def c64model_get_temp_over (models : List model_s)
    (vicii_model sid_model glue_logic cia1model cia2model board iecreset : Int)
    (chargen : Option String) (kernalrev : Int) : Int :=
  if cia1model ≠ cia2model then C64MODEL_UNKNOWN
  else
    let new_sid := is_new_sid sid_model
    let new_cia := is_new_cia cia1model
    c64model_scan
      (fun m => c64model_match_rec m vicii_model new_sid glue_logic new_cia
        board iecreset chargen kernalrev)
      models 0

/-- c64scmodel.c `c64model_get_temp` applied to the constant table. -/
def c64model_get_temp
    (vicii_model sid_model glue_logic cia1model cia2model board iecreset : Int)
    (chargen : Option String) (kernalrev : Int) : Int :=
  c64model_get_temp_over c64models vicii_model sid_model glue_logic cia1model
    cia2model board iecreset chargen kernalrev

/-- c64model.h `c64model_details_t`. -/
structure c64model_details_t where
  vicii_model : Int
  sid_model : Int
  glue_logic : Int
  cia1_model : Int
  cia2_model : Int
  board : Int
  iecreset : Int
  chargen : Option String
  kernalrev : Int
deriving DecidableEq, Repr

/-- c64scmodel.c `c64model_get_model`: get model from details. -/
def c64model_get_model (details : c64model_details_t) : Int :=
  c64model_get_temp details.vicii_model details.sid_model details.glue_logic
    details.cia1_model details.cia2_model details.board details.iecreset
    details.chargen details.kernalrev

/-- Rendering of the claim that the lookup is an exact-match scan over all
fields: lowest index whose record has every field with a corresponding input
exactly equal to that input (`cia` corresponds to both `cia1model` and
`cia2model`, `sid` to `sid_model`, `chargenname` to `chargen`).  This follows
the spec wording, to be compared with `c64model_get_temp` from the source. -/
def c64model_get_temp_all_fields_exact
    (vicii_model sid_model glue_logic cia1model cia2model board iecreset : Int)
    (chargen : Option String) (kernalrev : Int) : Int :=
  c64model_scan
    (fun m =>
      (m.vicii == vicii_model)
        && (m.cia == cia1model)
        && (m.cia == cia2model)
        && (m.glue == glue_logic)
        && (m.sid == sid_model)
        && (m.board == board)
        && (m.iecreset == iecreset)
        && (m.kernalrev == kernalrev)
        && (match chargen with
            | none => false
            | some s => m.chargenname == s))
    c64models 0

/-- The input configuration matches record `i` of the table in the sense of
the code: the CIA models agree and the loop condition of `c64model_get_temp`
holds at record `i`. -/
def c64model_matches_at (i : Nat)
    (vicii_model sid_model glue_logic cia1model cia2model board iecreset : Int)
    (chargen : Option String) (kernalrev : Int) : Prop :=
  cia1model = cia2model ∧
    c64model_match_rec (c64models.getD i c64model_default_rec) vicii_model
      (is_new_sid sid_model) glue_logic (is_new_cia cia1model) board iecreset
      chargen kernalrev = true

instance (i : Nat) (v s g c1 c2 b ir : Int) (ch : Option String) (k : Int) :
    Decidable (c64model_matches_at i v s g c1 c2 b ir ch k) := by
  unfold c64model_matches_at; infer_instance

/-! ## resources.h : the external configuration/resource store

The resource store itself is not part of the excerpt.  Modelled from the
spec: an external configuration store that persists values and retrieves
them by string key; a retrieval can fail. -/

/-- Modelled from the spec: the string-keyed resource store backing
`resources_get_int` / `resources_get_string` / `resources_set_int` /
`resources_set_string` (resources.c is not part of the excerpt). -/
structure resources_t where
  ints : String → Option Int
  strs : String → Option String

/-- Modelled from the spec: `resources_get_int`; `none` is a failed
retrieval (a negative return status in C). -/
def resources_get_int (r : resources_t) (name : String) : Option Int :=
  r.ints name

/-- Modelled from the spec: `resources_get_string`. -/
def resources_get_string (r : resources_t) (name : String) : Option String :=
  r.strs name

/-- Modelled from the spec: `resources_set_int`. -/
def resources_set_int (r : resources_t) (name : String) (v : Int) : resources_t :=
  { r with ints := fun n => if n = name then some v else r.ints n }

/-- Modelled from the spec: `resources_set_string`. -/
def resources_set_string (r : resources_t) (name : String) (v : String) : resources_t :=
  { r with strs := fun n => if n = name then some v else r.strs n }

/-- c64scmodel.c `c64model_get`, parameterized by the table: reads the nine
resources; the short-circuit `||` chain returns -1 as soon as one retrieval
fails, otherwise the values feed `c64model_get_temp`. -/
def c64model_get_over (models : List model_s) (r : resources_t) : Int :=
  match resources_get_int r "VICIIModel" with
  | none => -1
  | some vicii_model =>
  match resources_get_int r "SidModel" with
  | none => -1
  | some sid_model =>
  match resources_get_int r "GlueLogic" with
  | none => -1
  | some glue_logic =>
  match resources_get_int r "CIA1Model" with
  | none => -1
  | some cia1model =>
  match resources_get_int r "CIA2Model" with
  | none => -1
  | some cia2model =>
  match resources_get_int r "BoardType" with
  | none => -1
  | some board =>
  match resources_get_int r "IECReset" with
  | none => -1
  | some iecreset =>
  match resources_get_int r "KernalRev" with
  | none => -1
  | some kernalrev =>
  match resources_get_string r "ChargenName" with
  | none => -1
  | some chargen =>
    c64model_get_temp_over models vicii_model sid_model glue_logic cia1model
      cia2model board iecreset (some chargen) kernalrev

/-- c64scmodel.c `c64model_get` applied to the constant table. -/
def c64model_get (r : resources_t) : Int :=
  c64model_get_over c64models r

/-! ## c64scmodel.c : model setting -/

/-- The eight `int` output locations written through pointers by
`c64model_set_temp`. -/
structure c64model_cells_t where
  vicii_model : Int
  sid_model : Int
  glue_logic : Int
  cia1model : Int
  cia2model : Int
  board : Int
  iecreset : Int
  kernalrev : Int
deriving DecidableEq, Repr

/-- `c64models[model]` as read from memory; total via a default record (the C
code only indexes with a valid model number). -/
def c64models_at_over (models : List model_s) (model : Int) : model_s :=
  models.getD model.toNat c64model_default_rec

/-- `c64models[model]` on the constant table. -/
def c64models_at (model : Int) : model_s :=
  c64models_at_over c64models model

/-- c64scmodel.c `c64model_set_temp`, parameterized by the table.  `chargen`
is read-only there (`const char *`).  The SID bit operations of the source:
`*sid_model >> 8` is an arithmetic shift, i.e. floor division by 256, which
for the positive divisor is Lean Int division; `*sid_model & 0xff` is the
two's-complement low byte, i.e. the value modulo 256; and
`(old_engine << 8) | new_sid_model` equals `old_engine * 256 + new_sid_model`
because `0 <= new_sid_model < 256` exactly fills the cleared low byte. -/
def c64model_set_temp_over (models : List model_s) (model : Int)
    (c : c64model_cells_t) (chargen : Option String) : c64model_cells_t :=
  let old_model := c64model_get_temp_over models c.vicii_model c.sid_model
    c.glue_logic c.cia1model c.cia2model c.board c.iecreset chargen c.kernalrev
  if model = old_model ∨ model = C64MODEL_UNKNOWN then c
  else
    let m := c64models_at_over models model
    let old_engine := c.sid_model / 256
    let old_sid_model := c.sid_model % 256
    let new_sid_model := m.sid
    let old_type := is_new_sid old_sid_model
    let new_type := is_new_sid new_sid_model
    { vicii_model := m.vicii
      cia1model := m.cia
      cia2model := m.cia
      glue_logic := m.glue
      board := m.board
      iecreset := m.iecreset
      kernalrev := m.kernalrev
      sid_model :=
        if old_type ≠ new_type then old_engine * 256 + new_sid_model
        else c.sid_model }

/-- c64scmodel.c `c64model_set_temp` on the constant table. -/
def c64model_set_temp (model : Int) (c : c64model_cells_t)
    (chargen : Option String) : c64model_cells_t :=
  c64model_set_temp_over c64models model c chargen

/-- c64scmodel.c `c64model_set_details`: passes the addresses of the eight
`int` members of the details record to `c64model_set_temp`, together with the
(read-only) `chargen` member. -/
def c64model_set_details (details : c64model_details_t) (model : Int) :
    c64model_details_t :=
  let c := c64model_set_temp model
    { vicii_model := details.vicii_model, sid_model := details.sid_model,
      glue_logic := details.glue_logic, cia1model := details.cia1_model,
      cia2model := details.cia2_model, board := details.board,
      iecreset := details.iecreset, kernalrev := details.kernalrev }
    details.chargen
  { details with
      vicii_model := c.vicii_model, sid_model := c.sid_model,
      glue_logic := c.glue_logic, cia1_model := c.cia1model,
      cia2_model := c.cia2model, board := c.board,
      iecreset := c.iecreset, kernalrev := c.kernalrev }

/-- Calls made by `c64model_set` into other subsystems, recorded as effects. -/
inductive external_call_t where
  | sid_set_engine_model (engine model_value : Int)
  | userport_enable (v : Int)
  | c64keyboard_enable (v : Int)
  | c64iec_enable (v : Int)
  | tapeport_enable (v : Int)
  | c64_cia2_enable (v : Int)
deriving DecidableEq, Repr

/-- The memory the c64scmodel.c module works on: the `c64models` table as it
sits in memory, the resource store, and a log of calls into other
subsystems. -/
structure c64_machine_state_t where
  models : List model_s
  resources : resources_t
  effects : List external_call_t

/-- c64scmodel.c `c64model_set`: writes the model's values to the resource
store and notifies the other subsystems.  The status results of the two
`resources_get_int` calls are ignored by the C code, so a failed retrieval
leaves an indeterminate value, modelled by `getD 0`. -/
def c64model_set_st (s : c64_machine_state_t) (model : Int) : c64_machine_state_t :=
  let old_model := c64model_get_over s.models s.resources
  if model = old_model ∨ model = C64MODEL_UNKNOWN then s
  else
    let m := c64models_at_over s.models model
    let r1 := resources_set_int s.resources "VICIIModel" m.vicii
    let pf : Int :=
      if m.ciatick = CIATICK_NET then
        if m.video = MACHINE_SYNC_PAL ∨ m.video = MACHINE_SYNC_PALN then 50 else 60
      else 60
    let r2 := resources_set_int r1 "MachinePowerFrequency" pf
    let r3 := resources_set_int r2 "CIA1Model" m.cia
    let r4 := resources_set_int r3 "CIA2Model" m.cia
    let r5 := resources_set_int r4 "GlueLogic" m.glue
    let r6 := resources_set_int r5 "BoardType" m.board
    let r7 := resources_set_int r6 "IECReset" m.iecreset
    let r8 := resources_set_string r7 "ChargenName" m.chargenname
    let r9 := resources_set_int r8 "KernalRev" m.kernalrev
    let old_engine := (resources_get_int r9 "SidEngine").getD 0
    let old_sid_model := (resources_get_int r9 "SidModel").getD 0
    let new_sid_model := m.sid
    let old_type := is_new_sid old_sid_model
    let new_type := is_new_sid new_sid_model
    { models := s.models
      resources := r9
      effects := s.effects
        ++ (if old_type ≠ new_type
            then [external_call_t.sid_set_engine_model old_engine new_sid_model]
            else [])
        ++ [external_call_t.userport_enable m.userport,
            external_call_t.c64keyboard_enable m.keyboard,
            external_call_t.c64iec_enable m.iec,
            external_call_t.tapeport_enable m.datasette,
            external_call_t.c64_cia2_enable m.cia2] }

/-- `c64model_get_temp` as a state transformer (it only reads the table). -/
def c64model_get_temp_st (s : c64_machine_state_t)
    (vicii_model sid_model glue_logic cia1model cia2model board iecreset : Int)
    (chargen : Option String) (kernalrev : Int) : Int × c64_machine_state_t :=
  (c64model_get_temp_over s.models vicii_model sid_model glue_logic cia1model
    cia2model board iecreset chargen kernalrev, s)

/-- `c64model_get_model` as a state transformer (it only reads the table). -/
def c64model_get_model_st (s : c64_machine_state_t)
    (details : c64model_details_t) : Int × c64_machine_state_t :=
  (c64model_get_temp_over s.models details.vicii_model details.sid_model
    details.glue_logic details.cia1_model details.cia2_model details.board
    details.iecreset details.chargen details.kernalrev, s)

/-- `c64model_get` as a state transformer (it reads the table and the
resource store). -/
def c64model_get_st (s : c64_machine_state_t) : Int × c64_machine_state_t :=
  (c64model_get_over s.models s.resources, s)

/-- `c64model_set_temp` as a state transformer (it reads the table and
writes only the caller's cells). -/
def c64model_set_temp_st (s : c64_machine_state_t) (model : Int)
    (c : c64model_cells_t) (chargen : Option String) :
    c64model_cells_t × c64_machine_state_t :=
  (c64model_set_temp_over s.models model c chargen, s)

/-- `c64model_set_details` as a state transformer. -/
def c64model_set_details_st (s : c64_machine_state_t)
    (details : c64model_details_t) (model : Int) :
    c64model_details_t × c64_machine_state_t :=
  let c := c64model_set_temp_over s.models model
    { vicii_model := details.vicii_model, sid_model := details.sid_model,
      glue_logic := details.glue_logic, cia1model := details.cia1_model,
      cia2model := details.cia2_model, board := details.board,
      iecreset := details.iecreset, kernalrev := details.kernalrev }
    details.chargen
  ({ details with
      vicii_model := c.vicii_model, sid_model := c.sid_model,
      glue_logic := c.glue_logic, cia1_model := c.cia1model,
      cia2_model := c.cia2model, board := c.board,
      iecreset := c.iecreset, kernalrev := c.kernalrev }, s)

/-! ## uimenu.c : menu item reference table -/

/-- uimenu.c: `#define MENU_REFERENCES_MAX 512`. -/
def MENU_REFERENCES_MAX : Int := 512

/-- uimenu.c `ui_menu_item_ref_t` (from uimenu.h): the pointers are modelled
as opaque identifiers. -/
structure ui_menu_item_ref_t where
  item_vice : Nat
  item_gtk3 : Nat
  handler_id : Nat
  window_id : Int
deriving DecidableEq, Repr

/-- The module-static data of uimenu.c used by `add_menu_item_ref`:
`menu_item_references[MENU_REFERENCES_MAX]` (as an Int-indexed map) and
`menu_ref_count`. -/
structure uimenu_state_t where
  menu_item_references : Int → ui_menu_item_ref_t
  menu_ref_count : Int

/-- What one call to `add_menu_item_ref` does: a possible log message, a
possible process exit via `archdep_vice_exit`, and the resulting static
state. -/
structure add_ref_outcome_t where
  log_messages : List String
  exit_code : Option Int
  state : uimenu_state_t

/-- uimenu.c `add_menu_item_ref`: when the table is full, log an error and
exit the process with status 1 without storing; otherwise store the new
reference at index `menu_ref_count` and increment the count. -/
def add_menu_item_ref (s : uimenu_state_t) (item_vice item_gtk3 handler_id : Nat)
    (window_id : Int) : add_ref_outcome_t :=
  if s.menu_ref_count = MENU_REFERENCES_MAX then
    { log_messages := ["add_menu_item_ref: menu item references table is FULL"]
      exit_code := some 1
      state := s }
  else
    { log_messages := []
      exit_code := none
      state :=
        { menu_item_references := fun j =>
            if j = s.menu_ref_count then
              { item_vice := item_vice, item_gtk3 := item_gtk3,
                handler_id := handler_id, window_id := window_id }
            else s.menu_item_references j
          menu_ref_count := s.menu_ref_count + 1 } }

/-! ## uimenu.c : locked vs unlocked signal connection -/

/-- uimenu.h `ui_menu_item_type_t` enumerators (the header is not part of
the excerpt; only distinctness and non-negativity of the valid enumerators
matter, with the list terminator using a negative type). -/
def UI_MENU_TYPE_ITEM_ACTION : Int := 0
def UI_MENU_TYPE_ITEM_CHECK : Int := 1
def UI_MENU_TYPE_ITEM_RADIO_INT : Int := 2
def UI_MENU_TYPE_ITEM_RADIO_STR : Int := 3
def UI_MENU_TYPE_SEPARATOR : Int := 4
def UI_MENU_TYPE_SUBMENU : Int := 5

/-- uimenu.h `ui_menu_item_t`.  `callback` is a function pointer modelled as
an optional opaque identifier; for `UI_MENU_TYPE_SUBMENU` items the `data`
member points to the sub-item array, modelled as the `submenu` component. -/
inductive ui_menu_item_t where
  | mk (item_type : Int) (label : Option String) (callback : Option Nat)
      (unlocked : Bool) (resource : Option String) (data : Nat)
      (action_id : Int) (submenu : List ui_menu_item_t)

def ui_menu_item_t.item_type : ui_menu_item_t → Int
  | .mk t _ _ _ _ _ _ _ => t

def ui_menu_item_t.label : ui_menu_item_t → Option String
  | .mk _ l _ _ _ _ _ _ => l

def ui_menu_item_t.callback : ui_menu_item_t → Option Nat
  | .mk _ _ cb _ _ _ _ _ => cb

def ui_menu_item_t.unlocked : ui_menu_item_t → Bool
  | .mk _ _ _ u _ _ _ _ => u

/-- The two signal-connection call paths of the excerpt:
`connect_locked` stands for `g_signal_connect` /
`vice_locking_gtk_accel_group_connect`, `connect_unlocked` for
`g_signal_connect_unlocked` / `gtk_accel_group_connect`. -/
inductive signal_path_t where
  | connect_locked
  | connect_unlocked
deriving DecidableEq, Repr

/-- One signal connection performed while building the menu: the signal
name, the call path used, whether the connected handler is the item's own
`callback` member (as opposed to the internal `on_menu_item_destroy`
handler), and the `unlocked` flag of the item concerned. -/
structure connect_event_t where
  signal : String
  path : signal_path_t
  item_callback : Bool
  item_unlocked : Bool
deriving DecidableEq, Repr

/-- uimenu.c `ui_menu_add`, reduced to the sequence of signal connections it
performs.  The `while (items[i].label != NULL || items[i].type >= 0)` loop
walks the array until the terminator; each arm of the `switch` on
`items[i].type` connects the item's callback (if any) locked or unlocked
according to `items[i].unlocked`; submenus recurse; every created item
additionally gets an unlocked `destroy` connection to
`on_menu_item_destroy` (the `default` arm creates no item). -/
def ui_menu_add_events : List ui_menu_item_t → List connect_event_t
  | [] => []
  | ui_menu_item_t.mk t lbl cb unl _res _data _act sub :: rest =>
    if lbl ≠ none ∨ t ≥ 0 then
      (if t = UI_MENU_TYPE_ITEM_ACTION then
        (if cb.isSome then
          [{ signal := "activate",
             path := if unl then .connect_unlocked else .connect_locked,
             item_callback := true, item_unlocked := unl }]
         else [])
       else if t = UI_MENU_TYPE_ITEM_CHECK then
        (if cb.isSome then
          [{ signal := "activate",
             path := if unl then .connect_unlocked else .connect_locked,
             item_callback := true, item_unlocked := unl }]
         else [])
       else if t = UI_MENU_TYPE_ITEM_RADIO_INT ∨ t = UI_MENU_TYPE_ITEM_RADIO_STR then
        (if cb.isSome then
          [{ signal := "toggled",
             path := if unl then .connect_unlocked else .connect_locked,
             item_callback := true, item_unlocked := unl }]
         else [])
       else if t = UI_MENU_TYPE_SEPARATOR then []
       else if t = UI_MENU_TYPE_SUBMENU then ui_menu_add_events sub
       else [])
      ++ (if t = UI_MENU_TYPE_ITEM_ACTION ∨ t = UI_MENU_TYPE_ITEM_CHECK
            ∨ t = UI_MENU_TYPE_ITEM_RADIO_INT ∨ t = UI_MENU_TYPE_ITEM_RADIO_STR
            ∨ t = UI_MENU_TYPE_SEPARATOR ∨ t = UI_MENU_TYPE_SUBMENU then
          [{ signal := "destroy", path := .connect_unlocked,
             item_callback := false, item_unlocked := unl }]
         else [])
      ++ ui_menu_add_events rest
    else []

/-- uimenu.c `ui_menu_set_accel_via_vice_item`, reduced to the accelerator
closure connection it performs: `gtk_accel_group_connect` (unlocked) when the
item's `unlocked` flag is set, `vice_locking_gtk_accel_group_connect`
otherwise; the closure wraps `handle_accelerator`, which forwards to the
item's own callback. -/
def ui_menu_set_accel_via_vice_item (item_vice : ui_menu_item_t) : connect_event_t :=
  { signal := "accel-group",
    path := if item_vice.unlocked then .connect_unlocked else .connect_locked,
    item_callback := true,
    item_unlocked := item_vice.unlocked }

/-! ## Demo inputs used by witnesses -/

/-- A full menu reference table (for exercising the capacity check). -/
def uimenu_state_full : uimenu_state_t :=
  { menu_item_references := fun _ =>
      { item_vice := 0, item_gtk3 := 0, handler_id := 0, window_id := 0 }
    menu_ref_count := MENU_REFERENCES_MAX }

/-- An empty menu reference table. -/
def uimenu_state_empty : uimenu_state_t :=
  { menu_item_references := fun _ =>
      { item_vice := 0, item_gtk3 := 0, handler_id := 0, window_id := 0 }
    menu_ref_count := 0 }

/-- A one-item menu: an action item with a callback and the unlocked flag. -/
def ui_menu_items_demo : List ui_menu_item_t :=
  [ui_menu_item_t.mk UI_MENU_TYPE_ITEM_ACTION (some "Item") (some 1) true none 0 1 []]

/-- The connection performed for the item of `ui_menu_items_demo`. -/
def connect_event_demo : connect_event_t :=
  { signal := "activate", path := signal_path_t.connect_unlocked,
    item_callback := true, item_unlocked := true }

/-- A resource store where every retrieval fails. -/
def resources_all_none : resources_t :=
  { ints := fun _ => none, strs := fun _ => none }

/-- A resource store where every integer resource is 0 and every string
resource is `"chargen"`. -/
def resources_all_zero : resources_t :=
  { ints := fun _ => some 0, strs := fun _ => some C64_CHARGEN_NAME }

/-- Zeroed output cells. -/
def c64model_cells_zero : c64model_cells_t :=
  { vicii_model := 0, sid_model := 0, glue_logic := 0, cia1model := 0,
    cia2model := 0, board := 0, iecreset := 0, kernalrev := 0 }

/-- Zeroed details with a NULL chargen. -/
def c64model_details_zero : c64model_details_t :=
  { vicii_model := 0, sid_model := 0, glue_logic := 0, cia1_model := 0,
    cia2_model := 0, board := 0, iecreset := 0, chargen := none, kernalrev := 0 }

/-! ## Helper lemmas -/

/-- A scan over records none of which satisfies the condition exhausts the
table and yields the sentinel. -/
theorem c64model_scan_mem_false (p : model_s → Bool) :
    ∀ (l : List model_s) (i : Nat), (∀ m ∈ l, p m = false) →
      c64model_scan p l i = C64MODEL_UNKNOWN := by
  intro l
  induction l with
  | nil => intro i _; rfl
  | cons m rest ih =>
    intro i h
    have hm := h m (by simp)
    simp [c64model_scan, hm]
    exact ih (i + 1) (fun x hx => h x (by simp [hx]))

/-- Characterization of the linear scan: either no record satisfies the
condition and the result is the sentinel, or the result is the index of the
first record that does. -/
theorem c64model_scan_first (p : model_s → Bool) :
    ∀ (l : List model_s) (i₀ : Nat),
      (c64model_scan p l i₀ = C64MODEL_UNKNOWN ∧
        ∀ j < l.length, p (l.getD j c64model_default_rec) = false) ∨
      (∃ j, j < l.length ∧ c64model_scan p l i₀ = Int.ofNat (i₀ + j) ∧
        p (l.getD j c64model_default_rec) = true ∧
        ∀ k < j, p (l.getD k c64model_default_rec) = false) := by
  intro l
  induction l with
  | nil => intro i₀; left; exact ⟨rfl, by simp⟩
  | cons m rest ih =>
    intro i₀
    cases hp : p m with
    | true =>
      right
      exact ⟨0, by simp, by simp [c64model_scan, hp], by simpa using hp, by omega⟩
    | false =>
      have hscan : c64model_scan p (m :: rest) i₀ = c64model_scan p rest (i₀ + 1) := by
        simp [c64model_scan, hp]
      rcases ih (i₀ + 1) with ⟨h1, h2⟩ | ⟨j, hj, heq, hpj, hmin⟩
      · left
        refine ⟨by rw [hscan]; exact h1, ?_⟩
        intro j hj
        cases j with
        | zero => simpa using hp
        | succ j => exact h2 j (by simpa using hj)
      · right
        refine ⟨j + 1, by simpa using hj, ?_, by simpa using hpj, ?_⟩
        · rw [hscan, heq]; congr 1; omega
        · intro k hk
          cases k with
          | zero => simpa using hp
          | succ k => exact hmin k (by omega)

/-- The result of `c64model_get_temp` when the CIA models agree is the plain
scan. -/
theorem c64model_get_temp_eq_scan
    (v s g c1 c2 b ir : Int) (ch : Option String) (k : Int) (hcc : c1 = c2) :
    c64model_get_temp v s g c1 c2 b ir ch k =
      c64model_scan
        (fun m => c64model_match_rec m v (is_new_sid s) g (is_new_cia c1) b ir ch k)
        c64models 0 := by
  simp [c64model_get_temp, c64model_get_temp_over, hcc]

/-- If no record matches (in the sense of the code), the lookup yields the
sentinel. -/
theorem c64model_get_temp_unknown_of_no_match
    (v s g c1 c2 b ir : Int) (ch : Option String) (k : Int)
    (h : ∀ i < C64MODEL_NUM, ¬c64model_matches_at i v s g c1 c2 b ir ch k) :
    c64model_get_temp v s g c1 c2 b ir ch k = C64MODEL_UNKNOWN := by
  by_cases hcc : c1 = c2
  · rw [c64model_get_temp_eq_scan v s g c1 c2 b ir ch k hcc]
    apply c64model_scan_mem_false
    intro m hm
    rcases List.mem_iff_getElem.1 hm with ⟨j, hjl, hje⟩
    have hj14 : j < C64MODEL_NUM := hjl
    have hgd : c64models.getD j c64model_default_rec = m := by
      rw [List.getD_eq_getElem?_getD, List.getElem?_eq_getElem hjl, hje, Option.getD_some]
    have hnm := h j hj14
    rw [c64model_matches_at, hgd] at hnm
    cases hmr : c64model_match_rec m v (is_new_sid s) g (is_new_cia c1) b ir ch k with
    | false => rfl
    | true => exact absurd ⟨hcc, hmr⟩ hnm
  · simp [c64model_get_temp, c64model_get_temp_over, hcc]

/-- The `sid` field of any record the code can index is the old/new flag,
hence within the low byte. -/
theorem c64models_at_sid_bound (model : Int) :
    0 ≤ (c64models_at model).sid ∧ (c64models_at model).sid < 256 := by
  rw [c64models_at, c64models_at_over]
  by_cases hi : model.toNat < c64models.length
  · rw [List.getD_eq_getElem?_getD, List.getElem?_eq_getElem hi]
    have hall : ∀ m ∈ c64models, 0 ≤ m.sid ∧ m.sid < 256 := by decide
    exact hall _ (List.getElem_mem hi)
  · rw [List.getD_eq_getElem?_getD, List.getElem?_eq_none (by omega)]
    constructor <;> decide

/-- `c64model_set_temp` is the identity when the requested model is the
detected one or the sentinel. -/
theorem c64model_set_temp_noop_aux (model : Int) (c : c64model_cells_t)
    (ch : Option String)
    (h : model = c64model_get_temp c.vicii_model c.sid_model c.glue_logic
          c.cia1model c.cia2model c.board c.iecreset ch c.kernalrev ∨
        model = C64MODEL_UNKNOWN) :
    c64model_set_temp model c ch = c := by
  rw [c64model_set_temp, c64model_set_temp_over, if_pos]
  exact h

/-- Every connection of an item's own callback made anywhere inside
`ui_menu_add` (submenus included) uses the unlocked path exactly when the
item's `unlocked` flag is set. -/
theorem ui_menu_add_events_discipline :
    ∀ (l : List ui_menu_item_t), ∀ e ∈ ui_menu_add_events l,
      e.item_callback = true →
      (e.path = signal_path_t.connect_unlocked ↔ e.item_unlocked = true) := by
  intro l
  induction l using ui_menu_add_events.induct with
  | case1 =>
    intro e he
    simp [ui_menu_add_events] at he
  | case2 t lbl cb unl res data act sub rest hcond ih_sub ih_rest =>
    intro e he hcb
    have he2 := he
    rw [ui_menu_add_events, if_pos hcond] at he2
    rcases List.mem_append.1 he2 with hAB | hC
    · rcases List.mem_append.1 hAB with hA | hB
      · split at hA
        · split at hA
          · rcases List.mem_singleton.1 hA with rfl
            cases unl <;> simp
          · simp at hA
        · split at hA
          · split at hA
            · rcases List.mem_singleton.1 hA with rfl
              cases unl <;> simp
            · simp at hA
          · split at hA
            · split at hA
              · rcases List.mem_singleton.1 hA with rfl
                cases unl <;> simp
              · simp at hA
            · split at hA
              · simp at hA
              · split at hA
                · exact ih_sub e hA hcb
                · simp at hA
      · split at hB
        · rcases List.mem_singleton.1 hB with rfl
          simp at hcb
        · simp at hB
    · exact ih_rest e hC hcb
  | case3 t lbl cb unl res data act sub rest hcond =>
    intro e he
    rw [ui_menu_add_events, if_neg hcond] at he
    simp at he

/-! ## Claims -/

/-- C1 (counterexample): the lookup is NOT an exact-match scan over all
fields.  With the C64C PAL configuration but the specific SID model 8580D,
`c64model_get_temp` still returns model 1 (the SID model is compared only by
its old/new classification), while an exact-match-on-all-fields scan finds no
record. -/
theorem c64model_get_temp_not_all_fields_exact :
    c64model_get_temp VICII_MODEL_8565 SID_MODEL_8580D GLUE_CUSTOM_IC
        CIA_MODEL_6526A CIA_MODEL_6526A BOARD_C64 IEC_HARD_RESET
        (some C64_CHARGEN_NAME) C64_KERNAL_REV3 = 1 ∧
      c64model_get_temp_all_fields_exact VICII_MODEL_8565 SID_MODEL_8580D
        GLUE_CUSTOM_IC CIA_MODEL_6526A CIA_MODEL_6526A BOARD_C64 IEC_HARD_RESET
        (some C64_CHARGEN_NAME) C64_KERNAL_REV3 = C64MODEL_UNKNOWN ∧
      (1 : Int) ≠ C64MODEL_UNKNOWN := by
  refine ⟨by decide, by decide, by decide⟩

/-- C1 (amended): `c64model_get_temp` performs a linear scan and returns the
lowest index whose record matches the input in the sense of the code
(`c64model_matches_at`: cia1model = cia2model; the VIC-II model, glue logic,
board, IEC reset and kernal revision compared exactly; the CIA and SID models
compared by old/new classification; the chargen name by string equality), and
`C64MODEL_UNKNOWN` when no record matches. -/
theorem c64model_get_temp_first_code_match
    (v s g c1 c2 b ir : Int) (ch : Option String) (k : Int) :
    (c64model_get_temp v s g c1 c2 b ir ch k = C64MODEL_UNKNOWN ∧
      ∀ i < C64MODEL_NUM, ¬c64model_matches_at i v s g c1 c2 b ir ch k) ∨
    (∃ i, i < C64MODEL_NUM ∧ c64model_get_temp v s g c1 c2 b ir ch k = Int.ofNat i ∧
      c64model_matches_at i v s g c1 c2 b ir ch k ∧
      ∀ j < i, ¬c64model_matches_at j v s g c1 c2 b ir ch k) := by
  by_cases hcc : c1 = c2
  · have hres := c64model_get_temp_eq_scan v s g c1 c2 b ir ch k hcc
    rcases c64model_scan_first
        (fun m => c64model_match_rec m v (is_new_sid s) g (is_new_cia c1) b ir ch k)
        c64models 0 with ⟨h1, h2⟩ | ⟨j, hj, heq, hpj, hmin⟩
    · left
      refine ⟨by rw [hres]; exact h1, ?_⟩
      intro i hi hm
      have hfi := h2 i hi
      rw [List.getD_eq_getElem?_getD] at hfi
      rw [c64model_matches_at] at hm
      simp [hfi] at hm
    · right
      refine ⟨j, hj, by rw [hres, heq]; congr 1; omega, ⟨hcc, hpj⟩, ?_⟩
      intro i hi hm
      have hfi := hmin i hi
      rw [List.getD_eq_getElem?_getD] at hfi
      rw [c64model_matches_at] at hm
      simp [hfi] at hm
  · left
    refine ⟨by simp [c64model_get_temp, c64model_get_temp_over, hcc], ?_⟩
    intro i _ hm
    exact hcc hm.1

/-- C2: round-trip through the table: for every index `i` of the model
table, looking up record `i`'s field values (its `cia` value for both CIA
arguments and its `sid` value as the SID model) returns exactly `i` — each
field combination appears at most once with respect to the lookup. -/
theorem c64model_get_temp_roundtrip :
    ∀ i : Fin c64models.length,
      c64model_get_temp (c64models.get i).vicii (c64models.get i).sid
        (c64models.get i).glue (c64models.get i).cia (c64models.get i).cia
        (c64models.get i).board (c64models.get i).iecreset
        (some (c64models.get i).chargenname) (c64models.get i).kernalrev
        = Int.ofNat i.val := by decide

/-- C3: a lookup miss returns the sentinel: whenever no record of the table
matches the input configuration, `c64model_get_temp` — and hence
`c64model_get_model` — returns `C64MODEL_UNKNOWN`, which is neither a valid
model index nor any other in-range value. -/
theorem c64model_lookup_miss_returns_sentinel :
    (∀ (v s g c1 c2 b ir : Int) (ch : Option String) (k : Int),
      (∀ i < C64MODEL_NUM, ¬c64model_matches_at i v s g c1 c2 b ir ch k) →
      c64model_get_temp v s g c1 c2 b ir ch k = C64MODEL_UNKNOWN ∧
        ¬(0 ≤ c64model_get_temp v s g c1 c2 b ir ch k ∧
          c64model_get_temp v s g c1 c2 b ir ch k < (C64MODEL_NUM : Int))) ∧
    (∀ details : c64model_details_t,
      (∀ i < C64MODEL_NUM, ¬c64model_matches_at i details.vicii_model
        details.sid_model details.glue_logic details.cia1_model
        details.cia2_model details.board details.iecreset details.chargen
        details.kernalrev) →
      c64model_get_model details = C64MODEL_UNKNOWN) := by
  constructor
  · intro v s g c1 c2 b ir ch k h
    have hu := c64model_get_temp_unknown_of_no_match v s g c1 c2 b ir ch k h
    refine ⟨hu, ?_⟩
    rw [hu]
    decide
  · intro details h
    exact c64model_get_temp_unknown_of_no_match _ _ _ _ _ _ _ _ _ h

/-- Witness for C3 at a concrete configuration (a NULL chargen, which no
record matches). -/
theorem c64model_lookup_miss_returns_sentinel_witness :
    c64model_get_temp 0 0 0 0 0 0 0 none 0 = C64MODEL_UNKNOWN ∧
      c64model_get_model c64model_details_zero = C64MODEL_UNKNOWN :=
  ⟨(c64model_lookup_miss_returns_sentinel.1 0 0 0 0 0 0 0 none 0 (by decide)).1,
    c64model_lookup_miss_returns_sentinel.2 c64model_details_zero (by decide)⟩

/-- C4: the fixed-capacity menu reference table: a call with the table full
(`menu_ref_count = MENU_REFERENCES_MAX`) logs an error and exits the process
with status 1 without storing anything; any other call stores the reference
at index `menu_ref_count`, leaves the other slots alone and increments the
count; consequently `menu_ref_count` never exceeds 512. -/
theorem add_menu_item_ref_capacity (s : uimenu_state_t)
    (iv ig hid : Nat) (wid : Int) :
    (s.menu_ref_count = MENU_REFERENCES_MAX →
      (add_menu_item_ref s iv ig hid wid).exit_code = some 1 ∧
      (add_menu_item_ref s iv ig hid wid).state = s ∧
      (add_menu_item_ref s iv ig hid wid).log_messages ≠ []) ∧
    (s.menu_ref_count ≠ MENU_REFERENCES_MAX →
      (add_menu_item_ref s iv ig hid wid).exit_code = none ∧
      (add_menu_item_ref s iv ig hid wid).state.menu_ref_count = s.menu_ref_count + 1 ∧
      (add_menu_item_ref s iv ig hid wid).state.menu_item_references s.menu_ref_count =
        { item_vice := iv, item_gtk3 := ig, handler_id := hid, window_id := wid } ∧
      ∀ j, j ≠ s.menu_ref_count →
        (add_menu_item_ref s iv ig hid wid).state.menu_item_references j =
          s.menu_item_references j) ∧
    (s.menu_ref_count ≤ MENU_REFERENCES_MAX →
      (add_menu_item_ref s iv ig hid wid).state.menu_ref_count ≤ MENU_REFERENCES_MAX) := by
  refine ⟨?_, ?_, ?_⟩
  · intro h
    simp [add_menu_item_ref, h]
  · intro h
    refine ⟨by simp [add_menu_item_ref, h], by simp [add_menu_item_ref, h],
      by simp [add_menu_item_ref, h], ?_⟩
    intro j hj
    simp [add_menu_item_ref, h, hj]
  · intro h
    by_cases hfull : s.menu_ref_count = MENU_REFERENCES_MAX
    · simp [add_menu_item_ref, hfull]
    · simp only [add_menu_item_ref, if_neg hfull]
      rw [MENU_REFERENCES_MAX] at *
      omega

/-- Witness for C4: with a full table the call exits with status 1; with an
empty table it stores at index 0 and the count becomes 1. -/
theorem add_menu_item_ref_capacity_witness :
    (add_menu_item_ref uimenu_state_full 1 2 3 0).exit_code = some 1 ∧
      (add_menu_item_ref uimenu_state_empty 1 2 3 0).state.menu_ref_count = 0 + 1 ∧
      (add_menu_item_ref uimenu_state_empty 1 2 3 0).state.menu_ref_count
        ≤ MENU_REFERENCES_MAX :=
  ⟨((add_menu_item_ref_capacity uimenu_state_full 1 2 3 0).1 rfl).1,
    ((add_menu_item_ref_capacity uimenu_state_empty 1 2 3 0).2.1 (by decide)).2.1,
    (add_menu_item_ref_capacity uimenu_state_empty 1 2 3 0).2.2 (by decide)⟩

/-- C5: `c64model_get` is driven by the nine named resource keys: it returns
-1 as soon as one of the retrievals fails, and otherwise returns the table
lookup applied to the retrieved values. -/
theorem c64model_get_resource_keys (r : resources_t) :
    ((r.ints "VICIIModel" = none ∨ r.ints "SidModel" = none ∨
      r.ints "GlueLogic" = none ∨ r.ints "CIA1Model" = none ∨
      r.ints "CIA2Model" = none ∨ r.ints "BoardType" = none ∨
      r.ints "IECReset" = none ∨ r.ints "KernalRev" = none ∨
      r.strs "ChargenName" = none) → c64model_get r = -1) ∧
    (∀ v s g c1 c2 b ir k ch,
      r.ints "VICIIModel" = some v → r.ints "SidModel" = some s →
      r.ints "GlueLogic" = some g → r.ints "CIA1Model" = some c1 →
      r.ints "CIA2Model" = some c2 → r.ints "BoardType" = some b →
      r.ints "IECReset" = some ir → r.ints "KernalRev" = some k →
      r.strs "ChargenName" = some ch →
      c64model_get r = c64model_get_temp v s g c1 c2 b ir (some ch) k) := by
  constructor
  · intro h
    cases h1 : r.ints "VICIIModel" with
    | none => simp [c64model_get, c64model_get_over, resources_get_int, h1]
    | some v =>
    cases h2 : r.ints "SidModel" with
    | none => simp [c64model_get, c64model_get_over, resources_get_int, h1, h2]
    | some s =>
    cases h3 : r.ints "GlueLogic" with
    | none => simp [c64model_get, c64model_get_over, resources_get_int, h1, h2, h3]
    | some g =>
    cases h4 : r.ints "CIA1Model" with
    | none => simp [c64model_get, c64model_get_over, resources_get_int, h1, h2, h3, h4]
    | some c1 =>
    cases h5 : r.ints "CIA2Model" with
    | none => simp [c64model_get, c64model_get_over, resources_get_int, h1, h2, h3, h4, h5]
    | some c2 =>
    cases h6 : r.ints "BoardType" with
    | none =>
      simp [c64model_get, c64model_get_over, resources_get_int, h1, h2, h3, h4, h5, h6]
    | some b =>
    cases h7 : r.ints "IECReset" with
    | none =>
      simp [c64model_get, c64model_get_over, resources_get_int, h1, h2, h3, h4, h5, h6, h7]
    | some ir =>
    cases h8 : r.ints "KernalRev" with
    | none =>
      simp [c64model_get, c64model_get_over, resources_get_int, h1, h2, h3, h4, h5, h6,
        h7, h8]
    | some k =>
    cases h9 : r.strs "ChargenName" with
    | none =>
      simp [c64model_get, c64model_get_over, resources_get_int, resources_get_string,
        h1, h2, h3, h4, h5, h6, h7, h8, h9]
    | some ch =>
      rcases h with h | h | h | h | h | h | h | h | h <;> simp_all
  · intro v s g c1 c2 b ir k ch hv hs hg hc1 hc2 hb hir hk hch
    simp [c64model_get, c64model_get_over, c64model_get_temp, resources_get_int,
      resources_get_string, hv, hs, hg, hc1, hc2, hb, hir, hk, hch]

/-- Witness for C5: a store where every retrieval fails yields -1; a store
with all integer resources 0 and chargen `"chargen"` yields the lookup on
those values. -/
theorem c64model_get_resource_keys_witness :
    c64model_get resources_all_none = -1 ∧
      c64model_get resources_all_zero =
        c64model_get_temp 0 0 0 0 0 0 0 (some C64_CHARGEN_NAME) 0 :=
  ⟨(c64model_get_resource_keys resources_all_none).1 (Or.inl rfl),
    (c64model_get_resource_keys resources_all_zero).2 0 0 0 0 0 0 0 0
      C64_CHARGEN_NAME rfl rfl rfl rfl rfl rfl rfl rfl rfl⟩

/-- C6: the locked/unlocked signal-connection discipline is governed by the
single `unlocked` flag: every connection of an item's own callback made by
`ui_menu_add` (and every accelerator installed by
`ui_menu_set_accel_via_vice_item`) uses the unlocked call path exactly when
the item's `unlocked` flag is set, and the locked call path otherwise. -/
theorem ui_menu_unlocked_flag_governs_connection :
    (∀ (items : List ui_menu_item_t) (e : connect_event_t),
      e ∈ ui_menu_add_events items → e.item_callback = true →
      (e.path = signal_path_t.connect_unlocked ↔ e.item_unlocked = true)) ∧
    (∀ item_vice : ui_menu_item_t,
      (ui_menu_set_accel_via_vice_item item_vice).path =
          signal_path_t.connect_unlocked ↔ item_vice.unlocked = true) := by
  constructor
  · exact ui_menu_add_events_discipline
  · intro item
    rcases item with ⟨t, lbl, cb, u, res, d, a, sub⟩
    cases u <;> simp [ui_menu_set_accel_via_vice_item, ui_menu_item_t.unlocked]

/-- Witness for C6: the activate connection of a concrete unlocked action
item uses the unlocked path. -/
theorem ui_menu_unlocked_flag_governs_connection_witness :
    connect_event_demo.path = signal_path_t.connect_unlocked ↔
      connect_event_demo.item_unlocked = true :=
  ui_menu_unlocked_flag_governs_connection.1 ui_menu_items_demo connect_event_demo
    (by rw [ui_menu_items_demo, ui_menu_add_events]
        simp [UI_MENU_TYPE_ITEM_ACTION, connect_event_demo])
    rfl

/-- C7: the model table is immutable: none of the six operations of the
module changes any record of the `c64models` table as it sits in the machine
state. -/
theorem c64models_table_immutable :
    (∀ (st : c64_machine_state_t) (v s g c1 c2 b ir : Int) (ch : Option String)
      (k : Int), (c64model_get_temp_st st v s g c1 c2 b ir ch k).2.models = st.models) ∧
    (∀ (st : c64_machine_state_t) (d : c64model_details_t),
      (c64model_get_model_st st d).2.models = st.models) ∧
    (∀ st : c64_machine_state_t, (c64model_get_st st).2.models = st.models) ∧
    (∀ (st : c64_machine_state_t) (model : Int) (c : c64model_cells_t)
      (ch : Option String),
      (c64model_set_temp_st st model c ch).2.models = st.models) ∧
    (∀ (st : c64_machine_state_t) (d : c64model_details_t) (model : Int),
      (c64model_set_details_st st d model).2.models = st.models) ∧
    (∀ (st : c64_machine_state_t) (model : Int),
      (c64model_set_st st model).models = st.models) := by
  refine ⟨fun _ _ _ _ _ _ _ _ _ _ => rfl, fun _ _ => rfl, fun _ => rfl,
    fun _ _ _ _ => rfl, fun _ _ _ => rfl, ?_⟩
  intro st model
  rw [c64model_set_st]
  split <;> rfl

/-- C8: `c64model_get_temp` returns `C64MODEL_UNKNOWN` whenever the two CIA
models differ, and whenever the chargen argument is NULL (no record can
match a NULL character-ROM name), regardless of the other arguments. -/
theorem c64model_get_temp_cia_mismatch_or_null_chargen
    (v s g c1 c2 b ir : Int) (ch : Option String) (k : Int)
    (h : c1 ≠ c2 ∨ ch = none) :
    c64model_get_temp v s g c1 c2 b ir ch k = C64MODEL_UNKNOWN := by
  rcases h with h | h
  · simp [c64model_get_temp, c64model_get_temp_over, h]
  · by_cases hcc : c1 = c2
    · rw [c64model_get_temp_eq_scan v s g c1 c2 b ir ch k hcc]
      apply c64model_scan_mem_false
      intro m _
      simp [c64model_match_rec, h]
    · simp [c64model_get_temp, c64model_get_temp_over, hcc]

/-- Witness for C8: differing CIA models, and a NULL chargen with otherwise
matching C64 PAL values, both yield the sentinel. -/
theorem c64model_get_temp_cia_mismatch_or_null_chargen_witness :
    c64model_get_temp VICII_MODEL_6569 SID_MODEL_6581 GLUE_DISCRETE
        CIA_MODEL_6526 CIA_MODEL_6526A BOARD_C64 IEC_SOFT_RESET
        (some C64_CHARGEN_NAME) C64_KERNAL_REV3 = C64MODEL_UNKNOWN ∧
      c64model_get_temp VICII_MODEL_6569 SID_MODEL_6581 GLUE_DISCRETE
        CIA_MODEL_6526 CIA_MODEL_6526 BOARD_C64 IEC_SOFT_RESET none
        C64_KERNAL_REV3 = C64MODEL_UNKNOWN :=
  ⟨c64model_get_temp_cia_mismatch_or_null_chargen _ _ _ _ _ _ _ _ _
      (Or.inl (by decide)),
    c64model_get_temp_cia_mismatch_or_null_chargen _ _ _ _ _ _ _ _ _
      (Or.inr rfl)⟩

/-- C9: `c64model_set_temp` (and hence `c64model_set_details`) is a no-op
when the requested model equals the currently detected model or equals
`C64MODEL_UNKNOWN`: every output location keeps its previous value. -/
theorem c64model_set_temp_noop :
    (∀ (model : Int) (c : c64model_cells_t) (ch : Option String),
      (model = c64model_get_temp c.vicii_model c.sid_model c.glue_logic
          c.cia1model c.cia2model c.board c.iecreset ch c.kernalrev ∨
        model = C64MODEL_UNKNOWN) →
      c64model_set_temp model c ch = c) ∧
    (∀ (details : c64model_details_t) (model : Int),
      (model = c64model_get_model details ∨ model = C64MODEL_UNKNOWN) →
      c64model_set_details details model = details) := by
  constructor
  · exact c64model_set_temp_noop_aux
  · intro details model h
    rcases details with ⟨dv, ds, dg, dc1, dc2, db, dir, dch, dk⟩
    have h1 := c64model_set_temp_noop_aux model
      { vicii_model := dv, sid_model := ds, glue_logic := dg, cia1model := dc1,
        cia2model := dc2, board := db, iecreset := dir, kernalrev := dk } dch h
    simp [c64model_set_details, h1]

/-- Witness for C9 at the sentinel model. -/
theorem c64model_set_temp_noop_witness :
    c64model_set_temp C64MODEL_UNKNOWN c64model_cells_zero none =
        c64model_cells_zero ∧
      c64model_set_details c64model_details_zero C64MODEL_UNKNOWN =
        c64model_details_zero :=
  ⟨c64model_set_temp_noop.1 C64MODEL_UNKNOWN c64model_cells_zero none (Or.inr rfl),
    c64model_set_temp_noop.2 c64model_details_zero C64MODEL_UNKNOWN (Or.inr rfl)⟩

/-- C10: `c64model_set_temp` always preserves the SID engine (the bits of
`*sid_model` from bit 8 up, i.e. its floor quotient by 256), and the low
byte either keeps its old value or — only when the old and the table's SID
model differ in their old(6581)/new(8580) classification — becomes the
table's SID value. -/
theorem c64model_set_temp_sid_engine_preserved
    (model : Int) (c : c64model_cells_t) (ch : Option String) :
    (c64model_set_temp model c ch).sid_model / 256 = c.sid_model / 256 ∧
      ((c64model_set_temp model c ch).sid_model % 256 = c.sid_model % 256 ∨
        ((c64model_set_temp model c ch).sid_model % 256 = (c64models_at model).sid ∧
          is_new_sid (c.sid_model % 256) ≠ is_new_sid (c64models_at model).sid)) := by
  simp only [c64model_set_temp, c64model_set_temp_over]
  split
  · exact ⟨rfl, Or.inl rfl⟩
  · have hb := c64models_at_sid_bound model
    rw [c64models_at] at hb
    by_cases hty : is_new_sid (c.sid_model % 256) ≠
        is_new_sid (c64models_at_over c64models model).sid
    · rw [if_pos hty]
      have h1 : (c.sid_model / 256 * 256 + (c64models_at_over c64models model).sid) / 256
          = c.sid_model / 256 := by omega
      have h2 : (c.sid_model / 256 * 256 + (c64models_at_over c64models model).sid) % 256
          = (c64models_at_over c64models model).sid := by omega
      exact ⟨h1, Or.inr ⟨h2, hty⟩⟩
    · rw [if_neg hty]
      exact ⟨rfl, Or.inl rfl⟩
